import Mathlib

/-!
Verification of the request-intake bot in `src/main.py` (a Telegram
conversation bot that collects a structured request form and answers
recall/search/export/manager queries over a spreadsheet record store).

The Python handlers are shallowly embedded as pure Lean functions on an
explicit session state; the nondeterminism of Python's `list(set(...))`
round-trip (used by `platform_select` for the stored platform list) is
modelled by relations that allow any duplicate-free enumeration of the
underlying set.
-/

namespace RequestBot

/-! ## Conversation state constants

Embeds the `range(18)` state enumeration of `src/main.py` (lines 71-90)
and `ConversationHandler.END` (which is `-1` in python-telegram-bot). -/

def PLATFORM_MODE_STATE : Int := 8

def PLATFORM_SELECT_STATE : Int := 9

def PLATFORM_OTHER_STATE : Int := 10

def CONFIRM_SUBMIT_STATE : Int := 11

def EXPORT_CHOICE_STATE : Int := 14

def EXPORT_DATE_START_STATE : Int := 15

def EXPORT_DATE_END_STATE : Int := 16

def END_STATE : Int := -1

/-! ## String helpers mirroring the Python primitives used by the source

These are written by structural recursion on the character list so that
they evaluate inside the kernel on concrete inputs. -/

/-- The whitespace characters removed by Python `str.strip()` (ASCII). -/
def isSpaceChar (c : Char) : Bool :=
  c = ' ' || c = '\t' || c = '\n' || c = '\r' || c = '\x0b' || c = '\x0c'

/-- Python `s.strip()` on ASCII whitespace. -/
def pyStrip (s : String) : String :=
  String.mk (((s.data.dropWhile isSpaceChar).reverse.dropWhile isSpaceChar).reverse)

/-- ASCII lower-casing of one character (Python `str.lower()` on the
ASCII inputs this program deals with). -/
def lowerChar (c : Char) : Char :=
  if 'A' ≤ c ∧ c ≤ 'Z' then Char.ofNat (c.toNat + 32) else c

/-- Python `s.lower()` (ASCII). -/
def pyLower (s : String) : String :=
  String.mk (s.data.map lowerChar)

/-- Split a character list at every occurrence of `sep`
(Python `s.split(sep)` for a one-character separator). -/
def splitChars (sep : Char) : List Char → List (List Char)
  | [] => [[]]
  | c :: rest =>
    if c = sep then [] :: splitChars sep rest
    else
      match splitChars sep rest with
      | [] => [[c]]
      | grp :: gs => (c :: grp) :: gs

def isDigitChar (c : Char) : Bool :=
  '0' ≤ c ∧ c ≤ '9'

/-- Numeric value of a digit string (only applied to all-digit lists). -/
def digitsToNat (cs : List Char) : Nat :=
  cs.foldl (fun n c => n * 10 + (c.toNat - 48)) 0

/-- Python `", ".join(xs)` (used at `src/main.py:391` and `:143`). -/
def joinComma (xs : List String) : String :=
  String.intercalate ", " xs

/-- Python `s.lstrip("@")`: remove every leading `@` (used at
`src/main.py:192` for the admin membership test). -/
def lstripAt (s : String) : String :=
  String.mk (s.data.dropWhile (· = '@'))

/-- Python substring test `needle in haystack` on strings, as contiguous
subsequence of characters (used by `search_brand` at `src/main.py:465`). -/
def pyIn (needle haystack : String) : Bool :=
  go needle.toList haystack.toList
where
  /-- `needle` occurs in `hay` iff it is a prefix of some suffix. -/
  go (needle hay : List Char) : Bool :=
    match hay with
    | [] => needle.isEmpty
    | _ :: rest => needle.isPrefixOf hay || go needle rest

/-! ## Platform catalog (`PLATFORMS`, `src/main.py:60-69`) -/

def PLATFORMS : List String :=
  ["Facebook", "Instagram", "YouTube", "Brand's Website", "Lazada",
   "Shopee", "TikTok", "Others"]

/-! ## Platform selector (`platform_mode` and `platform_select`)

`platform_select` (lines 328-357) keeps the selection in
`context.user_data["platforms"]` as a Python *list*, converts it to a
*set* on every event (`selected = set(...)`, line 333), toggles, and
stores `list(selected)` back (line 355).  The list stored back is some
duplicate-free enumeration of the set in an order Python does not
specify, so a toggle step is modelled as a relation. -/

/-- The set-level effect of one non-"done" toggle in `platform_select`
(lines 347-353): Single mode replaces the whole selection with the chosen
entry; Multi mode flips membership of the chosen entry. -/
def toggleFinset (mode : String) (s : Finset String) (sel : String) : Finset String :=
  if mode = "Single" then {sel}
  else if sel ∈ s then s.erase sel else insert sel s

/-- One toggle event of `platform_select`: the stored platform list is
replaced by some duplicate-free enumeration of the toggled set
(Python `list(set)` at `src/main.py:355`). -/
inductive SelectStep (mode : String) : List String → String → List String → Prop where
  | mk (cur : List String) (sel : String) (next : List String)
      (hsel : sel ≠ "done") (hnd : next.Nodup)
      (hset : next.toFinset = toggleFinset mode cur.toFinset sel) :
      SelectStep mode cur sel next

/-- A sequence of toggle events of `platform_select`, threading the stored
platform list through each step. -/
inductive SelectRun (mode : String) : List String → List String → List String → Prop where
  | nil (cur : List String) : SelectRun mode cur [] cur
  | cons {cur mid fin : List String} {sel : String} {rest : List String}
      (hstep : SelectStep mode cur sel mid) (hrest : SelectRun mode mid rest fin) :
      SelectRun mode cur (sel :: rest) fin

/-- The state returned by the "done" branch of `platform_select`
(lines 336-345): ask for other-platform text if "Others" is selected,
otherwise go to the confirmation prompt. -/
def doneState (cur : List String) : Int :=
  if "Others" ∈ cur.toFinset then PLATFORM_OTHER_STATE else CONFIRM_SUBMIT_STATE

/-- Result of the `platform_mode` handler (`src/main.py:318-325`). -/
structure ModeResult where
  platformMode : String
  platforms : List String
  nextState : Int
deriving DecidableEq, Repr

/-- `platform_mode` (`src/main.py:318-325`): any callback data other than
the exact string `"mode:single"` selects Multi; the selection list is
reset to `[]` and the conversation moves to platform selection. -/
def platform_mode (data : String) : ModeResult :=
  { platformMode := if data = "mode:single" then "Single" else "Multi"
    platforms := []
    nextState := PLATFORM_SELECT_STATE }

/-! ## Session data and the submission finalizer (`confirm_submit`)

`context.user_data` is a per-user dict; a missing key reads as the
default of the corresponding `.get` call, so each field is an `Option`.
`dict.clear()` (line 421) resets every field to `none`. -/

/-- The per-user session dict `context.user_data` of `src/main.py`. -/
structure UserData where
  brand_name : Option String := none
  creator_name : Option String := none
  room_no : Option String := none
  date_to_be_aired : Option String := none
  camera_requirements : Option String := none
  stage_design : Option String := none
  other_technical : Option String := none
  platform_mode : Option String := none
  platforms : Option (List String) := none
  platforms_other : Option String := none
deriving DecidableEq, Repr

/-- The session after `context.user_data.clear()`. -/
def emptyUserData : UserData := {}

/-- `username = (user.username or "").strip() or f"id:{user.id}"`
(`src/main.py:377`). -/
def effectiveUsername (uname : Option String) (uid : Nat) : String :=
  let u := pyStrip (uname.getD "")
  if u = "" then "id:" ++ toString uid else u

/-- The row handed to `_append_row` by `confirm_submit`
(`src/main.py:380-393`). -/
def submissionRow (timestamp username : String) (ud : UserData) : List String :=
  [ timestamp,
    username,
    ud.brand_name.getD "",
    ud.creator_name.getD "",
    ud.room_no.getD "",
    ud.date_to_be_aired.getD "",
    ud.camera_requirements.getD "",
    ud.stage_design.getD "",
    ud.other_technical.getD "",
    ud.platform_mode.getD "",
    joinComma (ud.platforms.getD []),
    ud.platforms_other.getD "" ]

/-- Observable outcome of one `confirm_submit` invocation. -/
structure SubmitResult where
  /-- the handler returned `ConversationHandler.END` normally -/
  ended : Bool
  /-- the row passed to `_append_row`, when the write was attempted -/
  attemptedRow : Option (List String)
  /-- the append to the record store succeeded -/
  written : Bool
  /-- the "Your request has been recorded." edit (line 403) happened -/
  successReported : Bool
  /-- observer usernames for which a `send_message` was attempted
  (the loop at lines 414-419) -/
  observersAttempted : List String
  /-- observer usernames whose `send_message` succeeded -/
  observersSucceeded : List String
  /-- the session dict at the end of the handler -/
  finalUserData : UserData
  /-- an exception escaped the handler (aborting the rest of its body) -/
  escaped : Bool
deriving DecidableEq, Repr

/-- `confirm_submit` (`src/main.py:369-422`).

External effects are supplied as parameters: `appendOk` is whether
`_append_row` succeeds (its failure is caught at lines 397-400);
`echoOk` is whether the `send_message` to the submitting chat at line 413
succeeds — that call is NOT inside a `try`, so its failure escapes the
handler and skips the observer loop and `user_data.clear()`;
`observerOk` gives each observer send's outcome (failures are caught
per-recipient at lines 416-419). -/
def confirm_submit (data : String) (ud : UserData) (uname : Option String)
    (uid : Nat) (timestamp : String) (appendOk echoOk : Bool)
    (notifyUsernames : List String) (observerOk : String → Bool) : SubmitResult :=
  if data = "confirm:no" then
    { ended := true, attemptedRow := none, written := false
      successReported := false, observersAttempted := []
      observersSucceeded := [], finalUserData := ud, escaped := false }
  else
    let username := effectiveUsername uname uid
    let row := submissionRow timestamp username ud
    if appendOk = false then
      { ended := true, attemptedRow := some row, written := false
        successReported := false, observersAttempted := []
        observersSucceeded := [], finalUserData := ud, escaped := false }
    else if echoOk = false then
      { ended := false, attemptedRow := some row, written := true
        successReported := true, observersAttempted := []
        observersSucceeded := [], finalUserData := ud, escaped := true }
    else
      let attempted := notifyUsernames.filter (fun u => u ≠ "")
      { ended := true, attemptedRow := some row, written := true
        successReported := true, observersAttempted := attempted
        observersSucceeded := attempted.filter observerOk
        finalUserData := emptyUserData, escaped := false }

/-- A concrete non-empty session used to exhibit behaviour at a point. -/
def demoUserData : UserData :=
  { brand_name := some "Acme Corp", creator_name := some "Jo"
    platform_mode := some "Single", platforms := some ["Facebook"] }

/-! ## Records read back from the store

`ws.get_all_records()` yields one dict per data row; the embedded query
functions only read the fields below. -/

/-- One record as read by `get_all_records()`, restricted to the columns
the query handlers access. -/
structure SheetRecord where
  timestamp : String
  requesterUsername : String
  brandName : String
  dateToBeAired : String
deriving DecidableEq, Repr

/-! ## Brand search (`search_brand`, `src/main.py:455-476`) -/

/-- The list of records reported by `search_brand`: the query is trimmed
and lowercased (line 456), matched as a case-insensitive substring of the
brand field (line 465), and the reply shows `matches[-10:]` in store
order (line 471). -/
def search_brand (queryRaw : String) (records : List SheetRecord) : List SheetRecord :=
  let queryText := pyLower (pyStrip queryRaw)
  let found := records.filter (fun r => pyIn queryText (pyLower r.brandName))
  found.drop (found.length - 10)

/-- Store holding brands "ACME Corp" then (more recently) "Acme2". -/
def acmeRecord1 : SheetRecord :=
  { timestamp := "2026-01-01 09:00:00", requesterUsername := "alice"
    brandName := "ACME Corp", dateToBeAired := "2026-02-01" }

def acmeRecord2 : SheetRecord :=
  { timestamp := "2026-02-01 09:00:00", requesterUsername := "bob"
    brandName := "Acme2", dateToBeAired := "2026-03-01" }

/-! ## Admin gate (`_is_admin`, `src/main.py:188-192`) and the export
command entry point (`export_csv_command`, lines 580-590) -/

/-- `_is_admin`: trim the username, reject the empty identity, strip the
leading `@`s and test exact (case-sensitive) membership in the
`ADMIN_USERNAMES` allow-list. -/
def is_admin (uname : Option String) (admins : List String) : Bool :=
  let username := pyStrip (uname.getD "")
  if username = "" then false
  else lstripAt username ∈ admins

/-- Observable outcome of the `/export` command handler. -/
structure CommandResult where
  reply : String
  /-- the handler performed a read of the record store -/
  storeRead : Bool
  nextState : Int
deriving DecidableEq, Repr

/-- `export_csv_command` (`src/main.py:580-590`): non-admins get a fixed
denial and the conversation ends; admins get the export-option keyboard
and move to `EXPORT_CHOICE`.  Neither branch touches the record store
(reads happen later, in `export_choice` and its continuations). -/
def export_csv_command (uname : Option String) (admins : List String) : CommandResult :=
  if is_admin uname admins = false then
    { reply := "Sorry, only admins can export CSV."
      storeRead := false, nextState := END_STATE }
  else
    { reply := "Choose an export option:"
      storeRead := false, nextState := EXPORT_CHOICE_STATE }

/-! ## Dates and timestamps

`_parse_date` (`src/main.py:195-196`) is
`datetime.strptime(value.strip(), "%Y-%m-%d").date()`; the record
timestamps are parsed with format `"%Y-%m-%d %H:%M:%S"`.  CPython's
`strptime` matches `%Y` as exactly four digits and `%m`/`%d`/`%H`/`%M`/`%S`
as one or two digits within their calendar ranges, requires the whole
input to be consumed, and the `datetime` constructor additionally checks
the day against the month length and requires `year >= 1`. -/

structure Date where
  year : Nat
  month : Nat
  day : Nat
deriving DecidableEq, Repr

/-- A numeric key whose order agrees with Python `date` comparison
(lexicographic on year, month, day) on all valid dates. -/
def dateKey (d : Date) : Nat :=
  d.year * 10000 + d.month * 100 + d.day

structure DateTime where
  date : Date
  hour : Nat
  minute : Nat
  second : Nat
deriving DecidableEq, Repr

/-- A one-or-two-digit numeric field of `strptime` with value range
`lo..hi`. -/
def parseNatField (cs : List Char) (lo hi : Nat) : Option Nat :=
  if 1 ≤ cs.length ∧ cs.length ≤ 2 ∧ cs.all isDigitChar then
    let v := digitsToNat cs
    if lo ≤ v ∧ v ≤ hi then some v else none
  else none

/-- The `%Y` field of `strptime`: exactly four digits. -/
def parseYearField (cs : List Char) : Option Nat :=
  if cs.length = 4 ∧ cs.all isDigitChar then some (digitsToNat cs) else none

def isLeapYear (y : Nat) : Bool :=
  (y % 4 = 0 && y % 100 ≠ 0) || y % 400 = 0

def daysInMonth (y m : Nat) : Nat :=
  if m = 2 then (if isLeapYear y then 29 else 28)
  else if m = 4 ∨ m = 6 ∨ m = 9 ∨ m = 11 then 30
  else 31

/-- Calendar validity enforced by the `datetime` constructor. -/
def mkValidDate (y m d : Nat) : Option Date :=
  if 1 ≤ y ∧ d ≤ daysInMonth y m then some ⟨y, m, d⟩ else none

/-- `strptime(s, "%Y-%m-%d")` (date part, on the character list). -/
def parseDatePart (cs : List Char) : Option Date :=
  match splitChars '-' cs with
  | [ys, ms, ds] =>
    match parseYearField ys, parseNatField ms 1 12, parseNatField ds 1 31 with
    | some y, some m, some d => mkValidDate y m d
    | _, _, _ => none
  | _ => none

/-- `_parse_date` (`src/main.py:195-196`). -/
def parse_date (value : String) : Option Date :=
  parseDatePart (pyStrip value).data

/-- `strptime(s, "%Y-%m-%d %H:%M:%S")` as used on record timestamps
(`src/main.py:554` and `:619`). -/
def parseTimestamp (s : String) : Option DateTime :=
  match splitChars ' ' s.data with
  | [dpart, tpart] =>
    match parseDatePart dpart, splitChars ':' tpart with
    | some d, [hs, mins, secs] =>
      match parseNatField hs 0 23, parseNatField mins 0 59, parseNatField secs 0 59 with
      | some h, some mi, some sec => some ⟨d, h, mi, sec⟩
      | _, _, _ => none
    | _, _ => none
  | _ => none

/-- Days since the Unix epoch of a civil date (Gregorian), the standard
era-based formula with truncating division on nonnegative operands. -/
def daysFromCivil (y m d : Nat) : Int :=
  let yi : Int := if m ≤ 2 then (y : Int) - 1 else (y : Int)
  let era : Int := yi / 400
  let yoe : Int := yi - era * 400
  let mp : Int := if 2 < m then (m : Int) - 3 else (m : Int) + 9
  let doy : Int := (153 * mp + 2) / 5 + (d : Int) - 1
  let doe : Int := yoe * 365 + yoe / 4 - yoe / 100 + doy
  era * 146097 + doe - 719468

/-- Wall-clock seconds of an aware datetime in the process timezone
(Asia/Manila has a fixed UTC offset, so differences of these values
equal Python's aware-datetime differences in seconds). -/
def epochSecs (dt : DateTime) : Int :=
  daysFromCivil dt.date.year dt.date.month dt.date.day * 86400
    + (dt.hour : Int) * 3600 + (dt.minute : Int) * 60 + (dt.second : Int)

/-! ## Export by date range (`export_date_start` / `export_date_end`,
`src/main.py:517-562`) -/

/-- `export_date_start` (`src/main.py:517-525`): on a malformed date the
same state re-prompts and `user_data["export_start"]` keeps its previous
value; on success the start date is stored and the conversation moves to
the end-date prompt.  Returns the stored start and the next state. -/
def export_date_start (text : String) (prevStart : Option Date) : Option Date × Int :=
  match parse_date text with
  | none => (prevStart, EXPORT_DATE_START_STATE)
  | some d => (some d, EXPORT_DATE_END_STATE)

/-- The record filter loop of `export_date_end` (`src/main.py:548-558`):
blank timestamps and unparsable timestamps are skipped; otherwise
`start <= ts.date() <= end` keeps the record.  When `export_start` is
`None`, Python's `None <= date` comparison raises (`.error`). -/
def dateFilterLoop (start : Option Date) (endD : Date) :
    List SheetRecord → Except Unit (List SheetRecord)
  | [] => .ok []
  | r :: rest =>
    let ts := (pyStrip r.timestamp)
    if ts = "" then dateFilterLoop start endD rest
    else
      match parseTimestamp ts with
      | none => dateFilterLoop start endD rest
      | some dt =>
        match start with
        | none => .error ()
        | some s =>
          if dateKey s ≤ dateKey dt.date ∧ dateKey dt.date ≤ dateKey endD then
            match dateFilterLoop start endD rest with
            | .ok l => .ok (r :: l)
            | .error e => .error e
          else dateFilterLoop start endD rest

/-- Observable outcome of `export_date_end`. -/
structure ExportEndResult where
  nextState : Int
  /-- the filtered record list handed to `export_csv_records`, when the
  export step was reached (an empty list yields the "nothing to export"
  notice rather than a file) -/
  exported : Option (List SheetRecord)
  /-- an uncaught exception aborted the handler -/
  crashed : Bool
deriving DecidableEq, Repr

/-- `export_date_end` (`src/main.py:528-562`).  `fetched` is the result
of the store read (`none` = `StoreReadError`, reported and terminal). -/
def export_date_end (text : String) (exportStart : Option Date)
    (fetched : Option (List SheetRecord)) : ExportEndResult :=
  match parse_date text with
  | none => { nextState := EXPORT_DATE_END_STATE, exported := none, crashed := false }
  | some e =>
    let badPair : Bool :=
      match exportStart with
      | some s => decide (dateKey e < dateKey s)
      | none => false
    if badPair then
      { nextState := EXPORT_DATE_END_STATE, exported := none, crashed := false }
    else
      match fetched with
      | none => { nextState := END_STATE, exported := none, crashed := false }
      | some records =>
        match dateFilterLoop exportStart e records with
        | .error _ =>
          { nextState := EXPORT_DATE_END_STATE, exported := none, crashed := true }
        | .ok filtered =>
          { nextState := END_STATE, exported := some filtered, crashed := false }

/-! ## Manager view statistics (`send_manager_view`, `src/main.py:600-639`)

The rolling-window counters of the loop at lines 610-626: for each record
with a parsable timestamp, `delta = now - ts_dt` and `delta.days` (the
floor of the difference in days) is compared with 7 and with 30. -/

/-- Whether a record is counted by the `delta.days <= 7` branch. -/
def counted7 (nowSec : Int) (r : SheetRecord) : Bool :=
  match parseTimestamp (pyStrip r.timestamp) with
  | none => false
  | some dt => decide ((nowSec - epochSecs dt).fdiv 86400 ≤ 7)

/-- Whether a record is counted by the `delta.days <= 30` branch. -/
def counted30 (nowSec : Int) (r : SheetRecord) : Bool :=
  match parseTimestamp (pyStrip r.timestamp) with
  | none => false
  | some dt => decide ((nowSec - epochSecs dt).fdiv 86400 ≤ 30)

/-- One iteration of the counting loop of `send_manager_view`
(lines 614-626), restricted to the `last_7`/`last_30` counters. -/
def statStep (nowSec : Int) (acc : Nat × Nat) (r : SheetRecord) : Nat × Nat :=
  match parseTimestamp (pyStrip r.timestamp) with
  | none => acc
  | some dt =>
    let deltaDays := (nowSec - epochSecs dt).fdiv 86400
    ((if deltaDays ≤ 7 then acc.1 + 1 else acc.1),
     (if deltaDays ≤ 30 then acc.2 + 1 else acc.2))

/-- The `(last_7, last_30)` counters produced by `send_manager_view`. -/
def managerCounts (nowSec : Int) (records : List SheetRecord) : Nat × Nat :=
  records.foldl (statStep nowSec) (0, 0)

/-- A record whose timestamp is 7 days and 18 hours before the reference
instant `refNow` below. -/
def staleRecord : SheetRecord :=
  { timestamp := "2026-10-04 18:00:00", requesterUsername := "carol"
    brandName := "Acme Corp", dateToBeAired := "2026-11-01" }

/-- A reference "now": 2026-10-12 12:00:00 in the process timezone. -/
def refNow : Int := epochSecs ⟨⟨2026, 10, 12⟩, 12, 0, 0⟩

/-! ## Helper lemmas about the platform selector -/

/-- The set underlying the stored platform list after a run of toggle
events is the fold of the set-level toggle over the events. -/
theorem selectRun_toFinset {mode : String} {cur sels fin : List String}
    (h : SelectRun mode cur sels fin) :
    fin.toFinset = List.foldl (toggleFinset mode) cur.toFinset sels := by
  induction h with
  | nil => simp
  | cons hstep _ ih =>
    cases hstep with
    | mk hsel hnd hset => rw [List.foldl_cons, ← hset]; exact ih

/-- Membership after one Multi-mode toggle: flipped for the chosen entry,
unchanged for every other entry. -/
theorem mem_toggle_multi (s : Finset String) (t x : String) :
    x ∈ toggleFinset "Multi" s t ↔ (if x = t then ¬ x ∈ s else x ∈ s) := by
  unfold toggleFinset
  rw [if_neg (by decide : ¬ ("Multi" : String) = "Single")]
  by_cases ht : t ∈ s
  · rw [if_pos ht]
    by_cases hx : x = t
    · subst hx; simp [Finset.mem_erase, ht]
    · simp [Finset.mem_erase, hx]
  · rw [if_neg ht]
    by_cases hx : x = t
    · subst hx; simp [Finset.mem_insert, ht]
    · simp [Finset.mem_insert, hx]

/-- Membership after a Multi-mode toggle fold is the symmetric difference
with the entries toggled an odd number of times. -/
theorem mem_foldl_multi (sels : List String) (s : Finset String) (x : String) :
    x ∈ List.foldl (toggleFinset "Multi") s sels ↔
      Xor' (x ∈ s) (sels.count x % 2 = 1) := by
  induction sels generalizing s with
  | nil => simp [Xor']
  | cons t ts ih =>
    rw [List.foldl_cons, ih, mem_toggle_multi]
    by_cases hx : x = t
    · subst hx
      rw [if_pos rfl, List.count_cons_self]
      have hpar : ((ts.count x + 1) % 2 = 1) ↔ ¬ (ts.count x % 2 = 1) := by omega
      rw [hpar]
      unfold Xor'
      tauto
    · rw [if_neg hx, List.count_cons_of_ne hx]

/-- Membership in the selection set after a Multi-mode run. -/
theorem mem_multi_run {cur sels fin : List String}
    (h : SelectRun "Multi" cur sels fin) (x : String) :
    x ∈ fin.toFinset ↔ Xor' (x ∈ cur.toFinset) (sels.count x % 2 = 1) := by
  rw [selectRun_toFinset h, mem_foldl_multi]

/-- A duplicate-free list whose underlying set is exactly
`{"Others", "TikTok"}` is one of its two enumerations. -/
theorem pair_enum (p : List String) (hnd : p.Nodup)
    (hs : p.toFinset = {"Others", "TikTok"}) :
    p = ["Others", "TikTok"] ∨ p = ["TikTok", "Others"] := by
  have hlen : p.length = 2 := by
    rw [← List.toFinset_card_of_nodup hnd, hs]
    decide
  match p, hlen with
  | [a, b], _ =>
    have ha : a ∈ ({"Others", "TikTok"} : Finset String) := by
      rw [← hs]; simp
    have hb : b ∈ ({"Others", "TikTok"} : Finset String) := by
      rw [← hs]; simp
    have hab : a ≠ b := by
      simp [List.nodup_cons] at hnd
      exact hnd
    simp only [Finset.mem_insert, Finset.mem_singleton] at ha hb
    rcases ha with rfl | rfl <;> rcases hb with rfl | rfl <;> simp_all

/-! ## Claim theorems -/

/-- C1.  In Single platform mode, after every platform-toggle event
processed by `platform_select`, the selection set has cardinality at most
1 and equals exactly the most recently toggled entry, for every sequence
of toggle events (every observation point is the end of a run whose last
event is some toggle `t`). -/
theorem single_mode_selection_is_last_toggle
    (init pre fin : List String) (t : String)
    (hrun : SelectRun "Single" init (pre ++ [t]) fin) :
    fin.toFinset = {t} ∧ fin.toFinset.card ≤ 1 := by
  have h := selectRun_toFinset hrun
  rw [List.foldl_append] at h
  simp only [List.foldl_cons, List.foldl_nil] at h
  rw [show toggleFinset "Single" (List.foldl (toggleFinset "Single") init.toFinset pre) t
        = {t} from by unfold toggleFinset; rw [if_pos rfl]] at h
  exact ⟨h, by rw [h]; simp⟩

/-- Witness for C1 at a concrete two-toggle run. -/
theorem single_mode_selection_is_last_toggle_witness :
    (["Instagram"] : List String).toFinset = {"Instagram"} ∧
      (["Instagram"] : List String).toFinset.card ≤ 1 :=
  single_mode_selection_is_last_toggle [] ["Facebook"] ["Instagram"] "Instagram"
    (SelectRun.cons
      (SelectStep.mk [] "Facebook" ["Facebook"] (by decide) (by decide) (by decide))
      (SelectRun.cons
        (SelectStep.mk ["Facebook"] "Instagram" ["Instagram"] (by decide) (by decide)
          (by decide))
        (SelectRun.nil _)))

/-- C2.  In Multi platform mode the selection set after any sequence of
toggle events is the symmetric-difference application of the toggles
(membership of `x` flips once per toggle of `x`), and inserting the same
toggle twice in a row anywhere in the sequence is a net no-op on the
selection set. -/
theorem multi_mode_toggle_parity (init sels fin : List String)
    (hrun : SelectRun "Multi" init sels fin) :
    (∀ x, x ∈ fin.toFinset ↔ Xor' (x ∈ init.toFinset) (sels.count x % 2 = 1)) ∧
    (∀ pre post (t : String) fin2, sels = pre ++ post →
      SelectRun "Multi" init (pre ++ t :: t :: post) fin2 →
      fin2.toFinset = fin.toFinset) := by
  refine ⟨mem_multi_run hrun, ?_⟩
  intro pre post t fin2 hsplit hrun2
  subst hsplit
  apply Finset.ext
  intro x
  rw [mem_multi_run hrun2 x, mem_multi_run hrun x]
  have hcount : (pre ++ t :: t :: post).count x % 2 = (pre ++ post).count x % 2 := by
    by_cases hx : x = t
    · subst hx
      simp only [List.count_append, List.count_cons_self]
      omega
    · simp only [List.count_append, List.count_cons_of_ne hx]
  have hiff : ((pre ++ t :: t :: post).count x % 2 = 1) ↔
      ((pre ++ post).count x % 2 = 1) := by rw [hcount]
  rw [hiff]

/-- Witness for C2: a concrete Multi-mode run (toggle "Facebook" once),
and the double-toggle no-op against the run that first toggles "TikTok"
twice. -/
theorem multi_mode_toggle_parity_witness :
    ("Facebook" ∈ (["Facebook"] : List String).toFinset ↔
      Xor' ("Facebook" ∈ ([] : List String).toFinset)
        ((["Facebook"] : List String).count "Facebook" % 2 = 1)) ∧
    (["Facebook"] : List String).toFinset = (["Facebook"] : List String).toFinset := by
  have h := multi_mode_toggle_parity [] ["Facebook"] ["Facebook"]
    (SelectRun.cons
      (SelectStep.mk [] "Facebook" ["Facebook"] (by decide) (by decide) (by decide))
      (SelectRun.nil _))
  refine ⟨h.1 "Facebook", ?_⟩
  exact h.2 [] ["Facebook"] "TikTok" ["Facebook"] rfl
    (SelectRun.cons
      (SelectStep.mk [] "TikTok" ["TikTok"] (by decide) (by decide) (by decide))
      (SelectRun.cons
        (SelectStep.mk ["TikTok"] "TikTok" [] (by decide) (by decide) (by decide))
        (SelectRun.cons
          (SelectStep.mk [] "Facebook" ["Facebook"] (by decide) (by decide) (by decide))
          (SelectRun.nil _))))

/-- C3 counterexample.  The claim says `confirm:no` clears the session,
but `confirm_submit` (`src/main.py:372-374`) only edits the message and
returns `END`: a session holding collected data is left exactly as it
was, which is not the cleared session. -/
theorem confirm_no_leaves_session_uncleared :
    (confirm_submit "confirm:no" demoUserData (some "bob") 1
        "2026-01-01 09:00:00" true true ["alice"] (fun _ => true)).finalUserData
      = demoUserData ∧
    demoUserData ≠ emptyUserData := by
  constructor
  · rfl
  · decide

/-- C3 as amended.  On `confirm:no` the conversation terminates and no
record write is attempted, but the collected user data is left unchanged
rather than cleared. -/
theorem confirm_no_terminates_without_write (ud : UserData)
    (uname : Option String) (uid : Nat) (ts : String) (appendOk echoOk : Bool)
    (ns : List String) (observerOk : String → Bool) :
    (confirm_submit "confirm:no" ud uname uid ts appendOk echoOk ns observerOk).ended
        = true ∧
    (confirm_submit "confirm:no" ud uname uid ts appendOk echoOk ns
        observerOk).attemptedRow = none ∧
    (confirm_submit "confirm:no" ud uname uid ts appendOk echoOk ns
        observerOk).finalUserData = ud := by
  refine ⟨?_, ?_, ?_⟩ <;> rfl

/-- C5 counterexample.  The claim says a failure of the submitter echo
does not prevent the observer notifications; but the echo send at
`src/main.py:413` is not wrapped in `try`, so when it fails the observer
loop is never reached: with one configured observer, none is attempted. -/
theorem echo_failure_blocks_observer_fanout :
    (confirm_submit "confirm:yes" demoUserData (some "bob") 1
        "2026-01-01 09:00:00" true false ["alice"] (fun _ => true)).observersAttempted
      = [] ∧
    (confirm_submit "confirm:yes" demoUserData (some "bob") 1
        "2026-01-01 09:00:00" true false ["alice"] (fun _ => true)).escaped = true ∧
    (["alice"] : List String) ≠ [] := by
  refine ⟨rfl, rfl, by decide⟩

/-- C5 as amended.  After a successful write, per-observer notification
failures are swallowed: every configured observer is attempted no matter
which observer sends fail, and the success already reported to the
submitter stands; but a failure of the submitter echo send (line 413)
escapes the handler, so no observer is attempted and the session is not
cleared — only the already-sent success report survives. -/
theorem observer_fanout_tolerance (ud : UserData) (uname : Option String)
    (uid : Nat) (ts : String) (ns : List String) (f g : String → Bool) :
    ((confirm_submit "confirm:yes" ud uname uid ts true true ns f).observersAttempted
        = ns.filter (fun u => u ≠ "")) ∧
    ((confirm_submit "confirm:yes" ud uname uid ts true true ns f).observersAttempted
        = (confirm_submit "confirm:yes" ud uname uid ts true true ns g).observersAttempted) ∧
    ((confirm_submit "confirm:yes" ud uname uid ts true true ns f).successReported
        = true) ∧
    ((confirm_submit "confirm:yes" ud uname uid ts true false ns f).observersAttempted
        = []) ∧
    ((confirm_submit "confirm:yes" ud uname uid ts true false ns f).escaped = true) ∧
    ((confirm_submit "confirm:yes" ud uname uid ts true false ns f).successReported
        = true) ∧
    ((confirm_submit "confirm:yes" ud uname uid ts true false ns f).finalUserData
        = ud) := by
  refine ⟨rfl, rfl, rfl, rfl, rfl, rfl, rfl⟩

/-- C10.  In the `PLATFORM_MODE` state every mode token other than the
exact string `"mode:single"` sets the platform mode to Multi and resets
the selection to empty, and every mode token (rejected never) moves the
conversation to platform selection. -/
theorem platform_mode_default_multi (data : String) (h : data ≠ "mode:single") :
    platform_mode data
        = { platformMode := "Multi", platforms := [],
            nextState := PLATFORM_SELECT_STATE } ∧
    ∀ d : String, (platform_mode d).nextState = PLATFORM_SELECT_STATE := by
  refine ⟨?_, fun d => rfl⟩
  unfold platform_mode
  rw [if_neg h]

/-- Witness for C10 at the token `"mode:multi"` (and at an unrecognized
token the same way). -/
theorem platform_mode_default_multi_witness :
    platform_mode "mode:multi"
        = { platformMode := "Multi", platforms := [],
            nextState := PLATFORM_SELECT_STATE } ∧
    ∀ d : String, (platform_mode d).nextState = PLATFORM_SELECT_STATE :=
  platform_mode_default_multi "mode:multi" (by decide)

/-- C4 counterexample.  The claim fixes the stored platforms field to the
selection insertion order "Others, TikTok"; but the code stores
`list(set(...))`, whose enumeration order is unspecified, and the
enumeration `["TikTok", "Others"]` is a permitted execution of the very
toggle sequence Others-then-TikTok, giving the join "TikTok, Others". -/
theorem multi_selection_order_not_insertion :
    SelectRun "Multi" [] ["Others", "TikTok"] ["TikTok", "Others"] ∧
    joinComma ["TikTok", "Others"] ≠ "Others, TikTok" := by
  constructor
  · exact SelectRun.cons
      (SelectStep.mk [] "Others" ["Others"] (by decide) (by decide) (by decide))
      (SelectRun.cons
        (SelectStep.mk ["Others"] "TikTok" ["TikTok", "Others"] (by decide) (by decide)
          (by decide))
        (SelectRun.nil _))
  · decide

/-- C4 as amended.  For the Multi-mode session that toggles "Others" then
"TikTok": pressing done moves to the other-platform prompt, the stored
platforms field is the comma-join of the two selected platforms in one or
the other enumeration order (not necessarily insertion order), and the
written row carries "Podcast Clips" as the other-platforms field.
`p` is the list stored by the "done" branch of `platform_select`
(`list(selected)`, so any duplicate-free enumeration of the selection). -/
theorem multi_selection_join_and_other_platforms (l p : List String)
    (hrun : SelectRun "Multi" [] ["Others", "TikTok"] l)
    (hnd : p.Nodup) (hset : p.toFinset = l.toFinset) :
    doneState l = PLATFORM_OTHER_STATE ∧
    (joinComma p = "Others, TikTok" ∨ joinComma p = "TikTok, Others") ∧
    (confirm_submit "confirm:yes"
        { platform_mode := some "Multi", platforms := some p,
          platforms_other := some "Podcast Clips" }
        (some "bob") 7 "2026-01-02 03:04:05" true true [] (fun _ => true)).attemptedRow
      = some ["2026-01-02 03:04:05", "bob", "", "", "", "", "", "", "", "Multi",
              joinComma p, "Podcast Clips"] := by
  have hl : l.toFinset = {"Others", "TikTok"} := by
    rw [selectRun_toFinset hrun]
    decide
  have hp2 : p.toFinset = ({"Others", "TikTok"} : Finset String) := by
    rw [hset, hl]
  refine ⟨?_, ?_, ?_⟩
  · unfold doneState
    rw [hl, if_pos (by decide)]
  · rcases pair_enum p hnd hp2 with rfl | rfl
    · left; rfl
    · right; rfl
  · rfl

/-- Witness for C4 at the insertion-order enumeration itself. -/
theorem multi_selection_join_and_other_platforms_witness :
    doneState ["Others", "TikTok"] = PLATFORM_OTHER_STATE ∧
    (joinComma ["Others", "TikTok"] = "Others, TikTok" ∨
      joinComma ["Others", "TikTok"] = "TikTok, Others") ∧
    (confirm_submit "confirm:yes"
        { platform_mode := some "Multi", platforms := some ["Others", "TikTok"],
          platforms_other := some "Podcast Clips" }
        (some "bob") 7 "2026-01-02 03:04:05" true true [] (fun _ => true)).attemptedRow
      = some ["2026-01-02 03:04:05", "bob", "", "", "", "", "", "", "", "Multi",
              joinComma ["Others", "TikTok"], "Podcast Clips"] :=
  multi_selection_join_and_other_platforms ["Others", "TikTok"] ["Others", "TikTok"]
    (SelectRun.cons
      (SelectStep.mk [] "Others" ["Others"] (by decide) (by decide) (by decide))
      (SelectRun.cons
        (SelectStep.mk ["Others"] "TikTok" ["Others", "TikTok"] (by decide) (by decide)
          (by decide))
        (SelectRun.nil _)))
    (by decide) rfl

/-- C6 counterexample.  Both acme records match, but `search_brand`
reports `matches[-10:]` in store order — oldest first — so with
"ACME Corp" appended before "Acme2" the reported order is not
most-recent-first. -/
theorem search_results_store_order_not_recent_first :
    search_brand "acme" [acmeRecord1, acmeRecord2] = [acmeRecord1, acmeRecord2] ∧
    [acmeRecord1, acmeRecord2] ≠ [acmeRecord2, acmeRecord1] := by
  constructor
  · decide
  · decide

/-- C6 as amended.  `search_brand` matches the trimmed, lowercased query
as a case-insensitive substring of the brand field; it reports at most 10
records, namely the most recent matches (a suffix of the match list), in
store order (oldest first, not most-recent-first); on the acme store both
records are returned. -/
theorem search_brand_spec (q : String) (recs : List SheetRecord) :
    (search_brand q recs).length ≤ 10 ∧
    (search_brand q recs) <:+
      (recs.filter (fun r => pyIn (pyLower (pyStrip q)) (pyLower r.brandName))) ∧
    (∀ r ∈ search_brand q recs,
      pyIn (pyLower (pyStrip q)) (pyLower r.brandName) = true) ∧
    search_brand "acme" [acmeRecord1, acmeRecord2] = [acmeRecord1, acmeRecord2] := by
  refine ⟨?_, ?_, ?_, by decide⟩
  · unfold search_brand
    rw [List.length_drop]
    omega
  · exact List.drop_suffix _ _
  · intro r hr
    unfold search_brand at hr
    have hr2 := List.drop_subset _ _ hr
    exact (List.mem_filter.mp hr2).2

/-- Witness for C6: both concrete records pass the membership conjunct. -/
theorem search_brand_spec_witness :
    pyIn (pyLower (pyStrip "acme")) (pyLower acmeRecord1.brandName) = true ∧
    pyIn (pyLower (pyStrip "acme")) (pyLower acmeRecord2.brandName) = true := by
  constructor
  · exact (search_brand_spec "acme" [acmeRecord1, acmeRecord2]).2.2.1 acmeRecord1
      (by decide)
  · exact (search_brand_spec "acme" [acmeRecord1, acmeRecord2]).2.2.1 acmeRecord2
      (by decide)

/-- C7.  In the export-by-date-range flow, an end date strictly earlier
than the collected start date re-issues the end-date prompt and never
produces a filtered result; and the end-date state is only ever entered
by `export_date_start` after a start date has been stored. -/
theorem export_end_before_start_reprompts (text : String) (s e : Date)
    (fetched : Option (List SheetRecord))
    (hparse : parse_date text = some e) (hlt : dateKey e < dateKey s) :
    export_date_end text (some s) fetched
      = { nextState := EXPORT_DATE_END_STATE, exported := none, crashed := false } ∧
    (∀ t prev, (export_date_start t prev).2 = EXPORT_DATE_END_STATE →
      ∃ d, (export_date_start t prev).1 = some d) := by
  constructor
  · simp [export_date_end, hparse, hlt]
  · intro t prev h
    unfold export_date_start at h ⊢
    cases hp : parse_date t with
    | none =>
      simp [hp, EXPORT_DATE_START_STATE, EXPORT_DATE_END_STATE] at h
    | some d =>
      simp [hp]

/-- Witness for C7 at end "2026-01-01" against start 2026-02-01. -/
theorem export_end_before_start_reprompts_witness :
    export_date_end "2026-01-01" (some ⟨2026, 2, 1⟩) none
      = { nextState := EXPORT_DATE_END_STATE, exported := none, crashed := false } ∧
    (∀ t prev, (export_date_start t prev).2 = EXPORT_DATE_END_STATE →
      ∃ d, (export_date_start t prev).1 = some d) :=
  export_end_before_start_reprompts "2026-01-01" ⟨2026, 2, 1⟩ ⟨2026, 1, 1⟩ none
    (by decide) (by decide)

/-- One counting-loop iteration adds the indicator of each window. -/
theorem statStep_eq (now : Int) (acc : Nat × Nat) (r : SheetRecord) :
    statStep now acc r
      = (acc.1 + (if counted7 now r then 1 else 0),
         acc.2 + (if counted30 now r then 1 else 0)) := by
  unfold statStep counted7 counted30
  cases hp : parseTimestamp (pyStrip r.timestamp) with
  | none => simp
  | some dt =>
    simp only []
    by_cases h7 : (now - epochSecs dt).fdiv 86400 ≤ 7 <;>
      by_cases h30 : (now - epochSecs dt).fdiv 86400 ≤ 30 <;>
        simp [h7, h30]

/-- The counting fold equals the per-window `countP`, from any start. -/
theorem statStep_counts (now : Int) (recs : List SheetRecord) (a b : Nat) :
    recs.foldl (statStep now) (a, b)
      = (a + recs.countP (counted7 now), b + recs.countP (counted30 now)) := by
  induction recs generalizing a b with
  | nil => simp
  | cons r rest ih =>
    rw [List.foldl_cons, statStep_eq, ih, List.countP_cons, List.countP_cons]
    refine Prod.ext ?_ ?_ <;> simp <;> omega

/-- C8 as amended.  `managerCounts` counts, over the records with
parsable timestamps, those with `(now - ts).days <= 7` and those with
`(now - ts).days <= 30`; the windows are cumulative (every record in the
7-day count is in the 30-day count), and a record at least 8 whole days
old is excluded from the 7-day window — but (see the counterexample) a
record *more* than 7 days old and less than 8 is still counted. -/
theorem manager_counts_cumulative_windows (now : Int) (recs : List SheetRecord) :
    (managerCounts now recs).1 = recs.countP (counted7 now) ∧
    (managerCounts now recs).2 = recs.countP (counted30 now) ∧
    (∀ r, counted7 now r = true → counted30 now r = true) ∧
    (∀ r dt, parseTimestamp (pyStrip r.timestamp) = some dt →
      8 * 86400 ≤ now - epochSecs dt → counted7 now r = false) := by
  refine ⟨?_, ?_, ?_, ?_⟩
  · unfold managerCounts
    rw [statStep_counts]
    simp
  · unfold managerCounts
    rw [statStep_counts]
    simp
  · intro r h7
    unfold counted7 at h7
    unfold counted30
    cases hp : parseTimestamp (pyStrip r.timestamp) with
    | none =>
      rw [hp] at h7
      exact Bool.noConfusion h7
    | some dt =>
      rw [hp] at h7
      have h7b : (now - epochSecs dt).fdiv 86400 ≤ 7 := of_decide_eq_true h7
      exact decide_eq_true (by omega)
  · intro r dt hp hge
    unfold counted7
    rw [hp]
    simp only [decide_eq_false_iff_not]
    rw [Int.fdiv_eq_ediv _ (by norm_num)]
    omega

/-- Witness for C8: an eleven-day-old record is excluded from the 7-day
window (discharging the parsability and age hypotheses concretely). -/
theorem manager_counts_cumulative_windows_witness :
    counted7 refNow
        { timestamp := "2026-10-01 00:00:00", requesterUsername := "dan"
          brandName := "B", dateToBeAired := "" } = false :=
  (manager_counts_cumulative_windows refNow []).2.2.2
    { timestamp := "2026-10-01 00:00:00", requesterUsername := "dan"
      brandName := "B", dateToBeAired := "" }
    ⟨⟨2026, 10, 1⟩, 0, 0, 0⟩ (by decide) (by decide)

/-- C8 counterexample.  `staleRecord` is 7 days and 18 hours old at
`refNow` — more than 7 days before now — yet `delta.days = 7 <= 7` counts
it in the 7-day window (and in the 30-day window). -/
theorem seven_day_window_overcounts :
    counted7 refNow staleRecord = true ∧
    parseTimestamp (pyStrip staleRecord.timestamp)
      = some ⟨⟨2026, 10, 4⟩, 18, 0, 0⟩ ∧
    7 * 86400 < refNow - epochSecs ⟨⟨2026, 10, 4⟩, 18, 0, 0⟩ ∧
    managerCounts refNow [staleRecord] = (1, 1) := by
  refine ⟨by decide, by decide, by decide, by decide⟩

/-- C9.  An identity that fails the allow-list membership test (empty
after trimming, or with leading `@`s stripped not an exact member of the
admin list) is not an admin, and its `/export` invocation gets the fixed
denial text, no record-store read, and a terminated conversation. -/
theorem non_admin_export_denied (uname : Option String) (admins : List String)
    (h : pyStrip (uname.getD "") = "" ∨ lstripAt (pyStrip (uname.getD "")) ∉ admins) :
    is_admin uname admins = false ∧
    export_csv_command uname admins
      = { reply := "Sorry, only admins can export CSV.",
          storeRead := false, nextState := END_STATE } := by
  have hadm : is_admin uname admins = false := by
    unfold is_admin
    by_cases he : pyStrip (uname.getD "") = ""
    · rw [if_pos he]
    · rw [if_neg he]
      rcases h with h | h
      · exact absurd h he
      · exact decide_eq_false h
  refine ⟨hadm, ?_⟩
  unfold export_csv_command
  rw [hadm, if_pos rfl]

/-- Witness for C9 at the concrete non-admin identity "mallory". -/
theorem non_admin_export_denied_witness :
    is_admin (some "mallory") ["boss"] = false ∧
    export_csv_command (some "mallory") ["boss"]
      = { reply := "Sorry, only admins can export CSV.",
          storeRead := false, nextState := END_STATE } :=
  non_admin_export_denied (some "mallory") ["boss"] (Or.inr (by decide))

end RequestBot
